import Mathlib

/-!
Shallow embedding of the terraform-provider-webarena repository
(internal/provider/provider.go, internal/provider/indigo_v1_vm_sshkey_resource.go,
and the data-source file), together with a model of the parts of the Go
standard library (strconv.FormatInt / strconv.ParseInt, base 10, 64 bit) and of
the external webarena-go/indigo client that the provider code calls.

The HTTP client is modelled as an oracle: a record of response functions, one
per REST endpoint, each returning either an error (Go: non-nil err), a nil
response pointer (Go: err == nil, resp == nil), or a response value.  Every
handler is a pure function from the oracle and the already-unmarshalled
Terraform model to the list of client calls it performs (in order) and its
outcome (state saved, diagnostic added, normal return without saving state, or
a nil-pointer dereference).
-/

set_option maxHeartbeats 1000000

/-- Terraform framework string value: a `types.String` is either unknown,
null, or a known string.  `ValueString` returns the empty string on null or
unknown values, as in the plugin framework. -/
inductive TFString where
  | unknown : TFString
  | null : TFString
  | value : String → TFString
deriving DecidableEq, Repr

def TFString.isUnknown : TFString → Bool
  | .unknown => true
  | _ => false

def TFString.isNull : TFString → Bool
  | .null => true
  | _ => false

def TFString.valueString : TFString → String
  | .value s => s
  | _ => ""

namespace indigo

/-- SSH key record of the webarena-go indigo library, as used by the provider:
the eight fields the handlers read (Id, ServiceId, UserId, Name, Sshkey,
Status, CreatedAt, UpdatedAt).  Go int64 values are modelled as `Int`. -/
structure SshKeyRecord where
  Id : Int
  ServiceId : String
  UserId : Int
  Name : String
  Sshkey : String
  Status : String
  CreatedAt : String
  UpdatedAt : String
deriving DecidableEq, Repr

/-- Request struct of CreateWebArenaIndigoV1VmSSHKey. -/
structure CreateWebArenaIndigoV1VmSSHKeyRequest where
  SshName : String
  SshKey : String
deriving DecidableEq, Repr

/-- Response of CreateWebArenaIndigoV1VmSSHKey: carries a single SSH key
record (the provider reads createResp.SshKey.<field>). -/
structure CreateWebArenaIndigoV1VmSSHKeyResponse where
  SshKey : SshKeyRecord
deriving DecidableEq, Repr

/-- Response of RetrieveWebArenaIndigoV1VmSSHKey: carries a slice of SSH key
records (the provider requires its length to be exactly 1). -/
structure RetrieveWebArenaIndigoV1VmSSHKeyResponse where
  SshKey : List SshKeyRecord
deriving DecidableEq, Repr

/-- Request struct of UpdateWebArenaIndigoV1VmSSHKey. -/
structure UpdateWebArenaIndigoV1VmSSHKeyRequest where
  SshName : String
  SshKey : String
  SshKeyState : String
deriving DecidableEq, Repr

/-- Response of UpdateWebArenaIndigoV1VmSSHKey.  The provider only checks it
for nil and never reads a field, so it is modelled without fields. -/
structure UpdateWebArenaIndigoV1VmSSHKeyResponse where
deriving DecidableEq, Repr

/-- Response of DestroyWebArenaIndigoV1VmSSHKey: the provider reads
destroyResp.Success and destroyResp.Message. -/
structure DestroyWebArenaIndigoV1VmSSHKeyResponse where
  Success : Bool
  Message : String
deriving DecidableEq, Repr

/-- Result of a Go client call `(resp *R, err error)`:
`.error e` models a non-nil error, `.ok none` models a nil error together
with a nil response pointer, `.ok (some r)` a nil error with response r. -/
def CallResult (R : Type) := Except String (Option R)

/-- The webarena-go indigo HTTP client, modelled as an oracle giving the
result of each of the four REST endpoints the provider uses. -/
structure Client where
  CreateWebArenaIndigoV1VmSSHKey :
    CreateWebArenaIndigoV1VmSSHKeyRequest → CallResult CreateWebArenaIndigoV1VmSSHKeyResponse
  RetrieveWebArenaIndigoV1VmSSHKey :
    Int → CallResult RetrieveWebArenaIndigoV1VmSSHKeyResponse
  UpdateWebArenaIndigoV1VmSSHKey :
    Int → UpdateWebArenaIndigoV1VmSSHKeyRequest → CallResult UpdateWebArenaIndigoV1VmSSHKeyResponse
  DestroyWebArenaIndigoV1VmSSHKey :
    Int → CallResult DestroyWebArenaIndigoV1VmSSHKeyResponse

end indigo

/-- One REST call performed by a handler, recorded in the trace. -/
inductive ClientCall where
  | create (req : indigo.CreateWebArenaIndigoV1VmSSHKeyRequest)
  | retrieve (id : Int)
  | update (id : Int) (req : indigo.UpdateWebArenaIndigoV1VmSSHKeyRequest)
  | destroy (id : Int)
deriving DecidableEq, Repr

namespace strconv

/-- Decimal digits of a natural number, most significant first
(helper for strconv.FormatInt, base 10). -/
def natDigits (n : Nat) : List Nat :=
  if h : n < 10 then [n]
  else
    have : n / 10 < n := Nat.div_lt_self (by omega) (by omega)
    natDigits (n / 10) ++ [n % 10]
termination_by n

/-- Character of a decimal digit. -/
def digitChar (d : Nat) : Char := Char.ofNat (48 + d)

/-- Character list of Go strconv.FormatInt(i, 10). -/
def intChars (i : Int) : List Char :=
  if i < 0 then '-' :: (natDigits i.natAbs).map digitChar
  else (natDigits i.natAbs).map digitChar

/-- Go strconv.FormatInt(i, 10): decimal representation, with a leading
minus sign for negative values. -/
def FormatInt (i : Int) : String := String.mk (intChars i)

/-- Numeric value of a decimal digit character, none if not a digit. -/
def charDigit (c : Char) : Option Nat :=
  if 48 ≤ c.toNat ∧ c.toNat ≤ 57 then some (c.toNat - 48) else none

/-- One step of digit accumulation while parsing. -/
def pdStep (acc : Option Nat) (c : Char) : Option Nat :=
  match acc, charDigit c with
  | some a, some d => some (a * 10 + d)
  | _, _ => none

/-- Parse a nonempty digit string into its value; none on a non-digit.
(The empty list yields some 0 and is rejected separately by the caller.) -/
def parseDigits (l : List Char) : Option Nat := l.foldl pdStep (some 0)

/-- Digits-and-range part of Go strconv.ParseInt(s, 10, 64), after the sign
has been consumed: require nonempty digits, then check the int64 range. -/
def ParseIntCore (neg : Bool) (ds : List Char) : Except String Int :=
  if ds = [] then .error "invalid syntax"
  else
    match parseDigits ds with
    | none => .error "invalid syntax"
    | some n =>
      let v : Int := if neg then -(n : Int) else (n : Int)
      if v < -(2 ^ 63) ∨ 2 ^ 63 - 1 < v then .error "value out of range"
      else .ok v

/-- Go strconv.ParseInt(s, 10, 64): optional sign, nonempty base-10 digits,
int64 range check. -/
def ParseInt (s : String) : Except String Int :=
  match s.data with
  | [] => .error "invalid syntax"
  | c :: rest =>
    if c = '-' then ParseIntCore true rest
    else if c = '+' then ParseIntCore false rest
    else ParseIntCore false (c :: rest)

theorem natDigits_lt {n : Nat} (h : n < 10) : natDigits n = [n] := by
  rw [natDigits]; simp [h]

theorem natDigits_ge {n : Nat} (h : ¬ n < 10) :
    natDigits n = natDigits (n / 10) ++ [n % 10] := by
  conv_lhs => rw [natDigits]
  simp [h]

theorem natDigits_ne_nil (n : Nat) : natDigits n ≠ [] := by
  by_cases h : n < 10
  · rw [natDigits_lt h]; simp
  · rw [natDigits_ge h]; simp

theorem natDigits_lt_ten (n : Nat) : ∀ d ∈ natDigits n, d < 10 := by
  by_cases h : n < 10
  · rw [natDigits_lt h]; intro d hd; simp at hd; omega
  · rw [natDigits_ge h]
    intro d hd
    rw [List.mem_append] at hd
    rcases hd with hmem | hmem
    · exact natDigits_lt_ten (n / 10) d hmem
    · simp at hmem; omega
termination_by n
decreasing_by exact Nat.div_lt_self (by omega) (by omega)

theorem foldl_natDigits (n : Nat) :
    ∀ a, List.foldl (fun x d => x * 10 + d) a (natDigits n) =
      a * 10 ^ (natDigits n).length + n := by
  by_cases h : n < 10
  · rw [natDigits_lt h]; intro a; simp [List.foldl]
  · rw [natDigits_ge h]
    intro a
    rw [List.foldl_append, List.length_append]
    have ih := foldl_natDigits (n / 10) a
    simp only [List.foldl] at ih ⊢
    rw [ih]
    generalize (natDigits (n / 10)).length = k
    simp only [List.length_cons, List.length_nil]
    ring_nf
    omega
termination_by n
decreasing_by exact Nat.div_lt_self (by omega) (by omega)

theorem charDigit_digitChar {d : Nat} (h : d < 10) :
    charDigit (digitChar d) = some d := by
  interval_cases d <;> decide

theorem digitChar_ne_dash {d : Nat} (h : d < 10) : digitChar d ≠ '-' := by
  interval_cases d <;> decide

theorem digitChar_ne_plus {d : Nat} (h : d < 10) : digitChar d ≠ '+' := by
  interval_cases d <;> decide

theorem foldl_pdStep_map (l : List Nat) (hl : ∀ d ∈ l, d < 10) :
    ∀ a, List.foldl pdStep (some a) (l.map digitChar) =
      some (List.foldl (fun x d => x * 10 + d) a l) := by
  induction l with
  | nil => intro a; rfl
  | cons d t ih =>
    intro a
    have hd : d < 10 := hl d (List.mem_cons_self d t)
    have ht : ∀ x ∈ t, x < 10 := fun x hx => hl x (List.mem_cons_of_mem d hx)
    simp only [List.map_cons, List.foldl_cons]
    rw [show pdStep (some a) (digitChar d) = some (a * 10 + d) by
      simp [pdStep, charDigit_digitChar hd]]
    exact ih ht (a * 10 + d)

theorem parseDigits_natDigits (n : Nat) :
    parseDigits ((natDigits n).map digitChar) = some n := by
  unfold parseDigits
  rw [foldl_pdStep_map _ (natDigits_lt_ten n) 0, foldl_natDigits]
  simp

theorem ParseInt_mk_cons (c : Char) (cs : List Char) :
    ParseInt (String.mk (c :: cs)) =
      if c = '-' then ParseIntCore true cs
      else if c = '+' then ParseIntCore false cs
      else ParseIntCore false (c :: cs) := rfl

theorem ParseIntCore_true (n : Nat) (l : List Char)
    (hne : l ≠ []) (hp : parseDigits l = some n) :
    ParseIntCore true l =
      if -(n : Int) < -(2 ^ 63) ∨ 2 ^ 63 - 1 < -(n : Int) then .error "value out of range"
      else .ok (-(n : Int)) := by
  unfold ParseIntCore
  rw [if_neg hne, hp]
  rfl

theorem ParseIntCore_false (n : Nat) (l : List Char)
    (hne : l ≠ []) (hp : parseDigits l = some n) :
    ParseIntCore false l =
      if (n : Int) < -(2 ^ 63) ∨ 2 ^ 63 - 1 < (n : Int) then .error "value out of range"
      else .ok (n : Int) := by
  unfold ParseIntCore
  rw [if_neg hne, hp]
  rfl

theorem ParseInt_FormatInt (i : Int) (h1 : -(2 ^ 63) ≤ i) (h2 : i ≤ 2 ^ 63 - 1) :
    ParseInt (FormatInt i) = .ok i := by
  by_cases hneg : i < 0
  · have hchars : intChars i = '-' :: (natDigits i.natAbs).map digitChar := by
      rw [intChars, if_pos hneg]
    rw [FormatInt, hchars, ParseInt_mk_cons, if_pos rfl]
    rw [ParseIntCore_true i.natAbs _ (by simp [natDigits_ne_nil])
      (parseDigits_natDigits i.natAbs)]
    rw [if_neg (by omega)]
    congr 1
    omega
  · have hchars : intChars i = (natDigits i.natAbs).map digitChar := by
      rw [intChars, if_neg hneg]
    obtain ⟨d, t, hdt⟩ : ∃ d t, natDigits i.natAbs = d :: t := by
      cases h : natDigits i.natAbs with
      | nil => exact absurd h (natDigits_ne_nil _)
      | cons d t => exact ⟨d, t, rfl⟩
    have hd10 : d < 10 := natDigits_lt_ten i.natAbs d (by rw [hdt]; simp)
    rw [FormatInt, hchars, hdt, List.map_cons, ParseInt_mk_cons]
    rw [if_neg (digitChar_ne_dash hd10), if_neg (digitChar_ne_plus hd10)]
    rw [show digitChar d :: t.map digitChar = (natDigits i.natAbs).map digitChar by
      rw [hdt, List.map_cons]]
    rw [ParseIntCore_false i.natAbs _ (by simp [natDigits_ne_nil])
      (parseDigits_natDigits i.natAbs)]
    rw [if_neg (by omega)]
    congr 1
    omega

end strconv

example : strconv.FormatInt 1234 = "1234" := by
  simp [strconv.FormatInt, strconv.intChars, strconv.natDigits, strconv.digitChar]
example : strconv.FormatInt (-56) = "-56" := by
  simp [strconv.FormatInt, strconv.intChars, strconv.natDigits, strconv.digitChar]
example : strconv.ParseInt "1234" = .ok 1234 := rfl
example : strconv.ParseInt "-56" = .ok (-56) := rfl
example : strconv.ParseInt "" = .error "invalid syntax" := rfl
example : strconv.ParseInt "12x" = .error "invalid syntax" := rfl
example : strconv.ParseInt "9223372036854775807" = .ok 9223372036854775807 := rfl
example : strconv.ParseInt "9223372036854775808" = .error "value out of range" := rfl
example : strconv.ParseInt "-9223372036854775808" = .ok (-9223372036854775808) := rfl

/-- Resource data model IndigoV1VmSSHKeyResourceModel: eight attributes, with
id as a string (the WebARENA API uses an int64 id, but Terraform import needs
a string id).  The fields are the values after a successful Get, so plain
String / Int rather than TFString. -/
structure IndigoV1VmSSHKeyResourceModel where
  ID : String
  ServiceId : String
  UserId : Int
  Name : String
  SshKey : String
  Status : String
  CreatedAt : String
  UpdatedAt : String
deriving DecidableEq, Repr

/-- Data source data model IndigoV1VmSSHKeyDataSourceModel: same eight
attributes, but id is an int64. -/
structure IndigoV1VmSSHKeyDataSourceModel where
  Id : Int
  ServiceId : String
  UserId : Int
  Name : String
  SshKey : String
  Status : String
  CreatedAt : String
  UpdatedAt : String
deriving DecidableEq, Repr

/-- Outcome of a handler run.
`setState st` means the handler reached resp.State.Set with state st;
`errored title` means a diagnostic with the given title was added and the
handler returned early without setting state;
`done` means the handler returned normally without calling resp.State.Set
(the success path of Delete);
`nilPanic` means the handler dereferenced a nil response pointer. -/
inductive Outcome (σ : Type) where
  | setState (st : σ)
  | errored (title : String)
  | done
  | nilPanic
deriving DecidableEq, Repr

def Outcome.savesState {σ : Type} : Outcome σ → Bool
  | .setState _ => true
  | _ => false

def Outcome.isErrored {σ : Type} : Outcome σ → Bool
  | .errored _ => true
  | _ => false

/-- Result of running a handler: the client calls it performed, in order, and
its outcome. -/
def HandlerResult (σ : Type) := List ClientCall × Outcome σ

namespace IndigoV1VmSSHKeyResource

/-- Request struct built by Create from the plan. -/
def createRequest (plan : IndigoV1VmSSHKeyResourceModel) :
    indigo.CreateWebArenaIndigoV1VmSSHKeyRequest :=
  { SshName := plan.Name, SshKey := plan.SshKey }

/-- Request struct built by Update from the plan. -/
def updateRequest (plan : IndigoV1VmSSHKeyResourceModel) :
    indigo.UpdateWebArenaIndigoV1VmSSHKeyRequest :=
  { SshName := plan.Name, SshKey := plan.SshKey, SshKeyState := plan.Status }

/-- Create handler.  Input planGet is the result of req.Plan.Get: either the
diagnostics error or the unmarshalled plan.  On success the handler calls
CreateWebArenaIndigoV1VmSSHKey once and overwrites all eight model fields
from the response record before resp.State.Set.  The response pointer is
dereferenced without a nil check, so a nil response is a nil dereference. -/
def Create (c : indigo.Client)
    (planGet : Except String IndigoV1VmSSHKeyResourceModel) :
    HandlerResult IndigoV1VmSSHKeyResourceModel :=
  match planGet with
  | .error e => ([], .errored e)
  | .ok plan =>
    match c.CreateWebArenaIndigoV1VmSSHKey (createRequest plan) with
    | .error _ => ([ClientCall.create (createRequest plan)], .errored "Client Error")
    | .ok none => ([ClientCall.create (createRequest plan)], .nilPanic)
    | .ok (some createResp) =>
      ([ClientCall.create (createRequest plan)],
       .setState { plan with
          ID := strconv.FormatInt createResp.SshKey.Id
          ServiceId := createResp.SshKey.ServiceId
          Name := createResp.SshKey.Name
          SshKey := createResp.SshKey.Sshkey
          UserId := createResp.SshKey.UserId
          Status := createResp.SshKey.Status
          CreatedAt := createResp.SshKey.CreatedAt
          UpdatedAt := createResp.SshKey.UpdatedAt })

/-- Read handler.  Parses the stored id string, calls
RetrieveWebArenaIndigoV1VmSSHKey, requires a non-nil response whose SshKey
slice has exactly one element, then overwrites all eight model fields from
that record before resp.State.Set. -/
def Read (c : indigo.Client)
    (stateGet : Except String IndigoV1VmSSHKeyResourceModel) :
    HandlerResult IndigoV1VmSSHKeyResourceModel :=
  match stateGet with
  | .error e => ([], .errored e)
  | .ok state =>
    match strconv.ParseInt state.ID with
    | .error _ => ([], .errored "ID Error")
    | .ok id =>
      match c.RetrieveWebArenaIndigoV1VmSSHKey id with
      | .error _ => ([ClientCall.retrieve id], .errored "Client Error")
      | .ok none => ([ClientCall.retrieve id], .errored "Client Error")
      | .ok (some retrieveResp) =>
        match retrieveResp.SshKey with
        | [sshKey] =>
          ([ClientCall.retrieve id],
           .setState { state with
              ID := strconv.FormatInt sshKey.Id
              ServiceId := sshKey.ServiceId
              UserId := sshKey.UserId
              Name := sshKey.Name
              SshKey := sshKey.Sshkey
              Status := sshKey.Status
              CreatedAt := sshKey.CreatedAt
              UpdatedAt := sshKey.UpdatedAt })
        | _ => ([ClientCall.retrieve id], .errored "Client Error")

/-- Update handler.  Parses the planned id string, calls
UpdateWebArenaIndigoV1VmSSHKey, requires a non-nil update response, then calls
RetrieveWebArenaIndigoV1VmSSHKey, requires a non-nil response whose SshKey
slice has exactly one element, and overwrites all eight model fields from
that record before resp.State.Set. -/
def Update (c : indigo.Client)
    (planGet : Except String IndigoV1VmSSHKeyResourceModel) :
    HandlerResult IndigoV1VmSSHKeyResourceModel :=
  match planGet with
  | .error e => ([], .errored e)
  | .ok plan =>
    match strconv.ParseInt plan.ID with
    | .error _ => ([], .errored "ID Error")
    | .ok id =>
      match c.UpdateWebArenaIndigoV1VmSSHKey id (updateRequest plan) with
      | .error _ => ([ClientCall.update id (updateRequest plan)], .errored "Client Error")
      | .ok none => ([ClientCall.update id (updateRequest plan)], .errored "Client Error")
      | .ok (some _) =>
        match c.RetrieveWebArenaIndigoV1VmSSHKey id with
        | .error _ =>
          ([ClientCall.update id (updateRequest plan), ClientCall.retrieve id],
           .errored "Client Error")
        | .ok none =>
          ([ClientCall.update id (updateRequest plan), ClientCall.retrieve id],
           .errored "Client Error")
        | .ok (some retrieveResp) =>
          match retrieveResp.SshKey with
          | [sshKey] =>
            ([ClientCall.update id (updateRequest plan), ClientCall.retrieve id],
             .setState { plan with
                ID := strconv.FormatInt sshKey.Id
                ServiceId := sshKey.ServiceId
                UserId := sshKey.UserId
                Name := sshKey.Name
                SshKey := sshKey.Sshkey
                Status := sshKey.Status
                CreatedAt := sshKey.CreatedAt
                UpdatedAt := sshKey.UpdatedAt })
          | _ =>
            ([ClientCall.update id (updateRequest plan), ClientCall.retrieve id],
             .errored "Client Error")

/-- Delete handler.  Parses the stored id string and calls
DestroyWebArenaIndigoV1VmSSHKey.  On the success branch the handler reads
destroyResp.Success and destroyResp.Message (for the trace log) without a nil
check, so a nil response with a nil error is a nil dereference.  No
resp.State.Set call is made on success. -/
def Delete (c : indigo.Client)
    (stateGet : Except String IndigoV1VmSSHKeyResourceModel) :
    HandlerResult IndigoV1VmSSHKeyResourceModel :=
  match stateGet with
  | .error e => ([], .errored e)
  | .ok state =>
    match strconv.ParseInt state.ID with
    | .error _ => ([], .errored "ID Error")
    | .ok id =>
      match c.DestroyWebArenaIndigoV1VmSSHKey id with
      | .error _ => ([ClientCall.destroy id], .errored "Client Error")
      | .ok none => ([ClientCall.destroy id], .nilPanic)
      | .ok (some _) => ([ClientCall.destroy id], .done)

/-- Framework helper resource.ImportStatePassthroughID, as documented by the
plugin framework: it sets the single state attribute at the given path to the
request ID string. -/
def ImportStatePassthroughID (attrPath : String) (reqID : String) :
    List (String × String) :=
  [(attrPath, reqID)]

/-- ImportState handler: delegates to ImportStatePassthroughID with path
"id".  It performs no client call; the result is the trace together with the
list of attributes written. -/
def ImportState (reqID : String) : List ClientCall × List (String × String) :=
  ([], ImportStatePassthroughID "id" reqID)

end IndigoV1VmSSHKeyResource

namespace IndigoV1VmSSHKeyDataSource

/-- Data source Read handler.  Calls RetrieveWebArenaIndigoV1VmSSHKey with
the configured int64 id, requires a non-nil response whose SshKey slice has
exactly one element, then overwrites all eight model fields from that record
before resp.State.Set. -/
def Read (c : indigo.Client)
    (configGet : Except String IndigoV1VmSSHKeyDataSourceModel) :
    HandlerResult IndigoV1VmSSHKeyDataSourceModel :=
  match configGet with
  | .error e => ([], .errored e)
  | .ok state =>
    match c.RetrieveWebArenaIndigoV1VmSSHKey state.Id with
    | .error _ => ([ClientCall.retrieve state.Id], .errored "Client Error")
    | .ok none => ([ClientCall.retrieve state.Id], .errored "Client Error")
    | .ok (some retrieveResp) =>
      match retrieveResp.SshKey with
      | [sshKey] =>
        ([ClientCall.retrieve state.Id],
         .setState { state with
            Id := sshKey.Id
            ServiceId := sshKey.ServiceId
            UserId := sshKey.UserId
            Name := sshKey.Name
            SshKey := sshKey.Sshkey
            Status := sshKey.Status
            CreatedAt := sshKey.CreatedAt
            UpdatedAt := sshKey.UpdatedAt })
      | _ => ([ClientCall.retrieve state.Id], .errored "Client Error")

end IndigoV1VmSSHKeyDataSource

namespace WebARENAProvider

/-- Resource constructors registered by the provider. -/
inductive ResourceConstructor where
  | NewIndigoV1VmSSHKeyResource
deriving DecidableEq, Repr

/-- Data source constructors registered by the provider. -/
inductive DataSourceConstructor where
  | NewIndigoV1VmSSHKeyDataSource
deriving DecidableEq, Repr

/-- WebARENAProvider.Resources: the list of resource constructors. -/
def Resources : List ResourceConstructor :=
  [ResourceConstructor.NewIndigoV1VmSSHKeyResource]

/-- WebARENAProvider.DataSources: the list of data source constructors. -/
def DataSources : List DataSourceConstructor :=
  [DataSourceConstructor.NewIndigoV1VmSSHKeyDataSource]

/-- Provider configuration model WebARENAProviderModel: three optional
Terraform string attributes. -/
structure Model where
  Endpoint : TFString
  ClientID : TFString
  ClientSecret : TFString
deriving DecidableEq, Repr

/-- Results of os.Getenv for the three WEBARENA_INDIGO_* environment
variables ("" when unset). -/
structure Env where
  WEBARENA_INDIGO_ENDPOINT : String
  WEBARENA_INDIGO_CLIENT_ID : String
  WEBARENA_INDIGO_CLIENT_SECRET : String
deriving DecidableEq, Repr

/-- Effective endpoint: the environment variable, overridden by the
configuration value when that is not null. -/
def resolvedEndpoint (env : Env) (config : Model) : String :=
  if config.Endpoint.isNull then env.WEBARENA_INDIGO_ENDPOINT
  else config.Endpoint.valueString

/-- Effective client id: the environment variable, overridden by the
configuration value when that is not null. -/
def resolvedClientID (env : Env) (config : Model) : String :=
  if config.ClientID.isNull then env.WEBARENA_INDIGO_CLIENT_ID
  else config.ClientID.valueString

/-- Effective client secret: the environment variable, overridden by the
configuration value when that is not null. -/
def resolvedClientSecret (env : Env) (config : Model) : String :=
  if config.ClientSecret.isNull then env.WEBARENA_INDIGO_CLIENT_SECRET
  else config.ClientSecret.valueString

/-- Outcome of WebARENAProvider.Configure, up to the indigo.NewClient call:
either diagnostics were added and Configure returned early, or Configure
reached NewClient with the given client id, client secret and endpoint
option (the endpoint option is only passed when the effective endpoint is
nonempty). -/
inductive ConfigureOutcome where
  | errored (titles : List String)
  | newClient (clientID clientSecret : String) (endpoint : Option String)
deriving DecidableEq, Repr

def ConfigureOutcome.reachesNewClient : ConfigureOutcome → Bool
  | .newClient _ _ _ => true
  | .errored _ => false

/-- WebARENAProvider.Configure.  First checks the three configuration values
for unknownness, then resolves them against the environment, then checks the
effective client id and client secret for emptiness, and only with all
diagnostics clear builds the client options and reaches indigo.NewClient. -/
def Configure (env : Env) (configGet : Except String Model) : ConfigureOutcome :=
  match configGet with
  | .error e => .errored [e]
  | .ok config =>
    let unknownDiags : List String :=
      (if config.Endpoint.isUnknown then ["Unknown WebARENA API Endpoint"] else []) ++
      (if config.ClientID.isUnknown then ["Unknown WebARENA API ClientID"] else []) ++
      (if config.ClientSecret.isUnknown then ["Unknown WebARENA API ClientSecret"] else [])
    if unknownDiags.isEmpty then
      let endpoint := resolvedEndpoint env config
      let clientID := resolvedClientID env config
      let clientSecret := resolvedClientSecret env config
      let missingDiags : List String :=
        (if clientID = "" then ["Missing WebARENA API ClientID"] else []) ++
        (if clientSecret = "" then ["Missing WebARENA API ClientSecret"] else [])
      if missingDiags.isEmpty then
        .newClient clientID clientSecret (if endpoint = "" then none else some endpoint)
      else .errored missingDiags
    else .errored unknownDiags

/-- All four field validations of the claim, as a Boolean: the three
configuration values are known, and the effective client id and client
secret are nonempty. -/
def configureValidationsPass (env : Env) (config : Model) : Bool :=
  !config.Endpoint.isUnknown && !config.ClientID.isUnknown &&
  !config.ClientSecret.isUnknown &&
  !(resolvedClientID env config == "") && !(resolvedClientSecret env config == "")

end WebARENAProvider

/-- Sample SSH key record used as concrete REST response content. -/
def sampleKey : indigo.SshKeyRecord :=
  { Id := 7, ServiceId := "wsi-000001", UserId := 42, Name := "key1",
    Sshkey := "ssh-rsa AAAA", Status := "ACTIVE",
    CreatedAt := "2024-01-01 00:00:00", UpdatedAt := "2024-01-02 00:00:00" }

/-- Sample resource model with a well-formed stored id. -/
def samplePlan : IndigoV1VmSSHKeyResourceModel :=
  { ID := "7", ServiceId := "wsi-000001", UserId := 42, Name := "key1",
    SshKey := "ssh-rsa AAAA", Status := "ACTIVE",
    CreatedAt := "2024-01-01 00:00:00", UpdatedAt := "2024-01-02 00:00:00" }

/-- Sample data source model. -/
def sampleDsConfig : IndigoV1VmSSHKeyDataSourceModel :=
  { Id := 7, ServiceId := "", UserId := 0, Name := "", SshKey := "",
    Status := "", CreatedAt := "", UpdatedAt := "" }

/-- Client whose four endpoints all answer successfully. -/
def happyClient : indigo.Client :=
  { CreateWebArenaIndigoV1VmSSHKey := fun _ => .ok (some { SshKey := sampleKey })
    RetrieveWebArenaIndigoV1VmSSHKey := fun _ => .ok (some { SshKey := [sampleKey] })
    UpdateWebArenaIndigoV1VmSSHKey := fun _ _ => .ok (some {})
    DestroyWebArenaIndigoV1VmSSHKey := fun _ =>
      .ok (some { Success := true, Message := "SSH key deleted" }) }

/-- Claim C1, counterexample: the claim says every handler calls exactly one
of the four REST endpoints once the input model is read without error, but on
its successful path the Update handler performs two REST calls, the update
endpoint followed by the retrieve endpoint, before marshalling into state. -/
theorem C1_counterexample :
    (IndigoV1VmSSHKeyResource.Update happyClient (.ok samplePlan)).1 =
      [ClientCall.update 7 (IndigoV1VmSSHKeyResource.updateRequest samplePlan),
       ClientCall.retrieve 7] ∧
    (IndigoV1VmSSHKeyResource.Update happyClient (.ok samplePlan)).1.length ≠ 1 ∧
    (IndigoV1VmSSHKeyResource.Update happyClient (.ok samplePlan)).2.savesState = true :=
  ⟨rfl, by decide, rfl⟩

/-- Claim C1 (amended): once the input model is read without error, Create
performs exactly one REST call (create); Read and Delete perform exactly one
call (retrieve, destroy) when the stored id parses and none otherwise; Update
performs the update call followed, when it succeeds, by the retrieve call —
one or two calls — before marshalling the response into Terraform state. -/
theorem C1_amended_calls :
    ∀ (c : indigo.Client) (plan state : IndigoV1VmSSHKeyResourceModel),
    (IndigoV1VmSSHKeyResource.Create c (.ok plan)).1 =
      [ClientCall.create (IndigoV1VmSSHKeyResource.createRequest plan)] ∧
    (∀ id, strconv.ParseInt state.ID = .ok id →
      (IndigoV1VmSSHKeyResource.Read c (.ok state)).1 = [ClientCall.retrieve id] ∧
      (IndigoV1VmSSHKeyResource.Delete c (.ok state)).1 = [ClientCall.destroy id]) ∧
    (∀ e, strconv.ParseInt state.ID = .error e →
      (IndigoV1VmSSHKeyResource.Read c (.ok state)).1 = [] ∧
      (IndigoV1VmSSHKeyResource.Update c (.ok state)).1 = [] ∧
      (IndigoV1VmSSHKeyResource.Delete c (.ok state)).1 = []) ∧
    (∀ id, strconv.ParseInt plan.ID = .ok id →
      (IndigoV1VmSSHKeyResource.Update c (.ok plan)).1 =
        [ClientCall.update id (IndigoV1VmSSHKeyResource.updateRequest plan)] ∨
      (IndigoV1VmSSHKeyResource.Update c (.ok plan)).1 =
        [ClientCall.update id (IndigoV1VmSSHKeyResource.updateRequest plan),
         ClientCall.retrieve id]) := by
  intro c plan state
  refine ⟨?_, ?_, ?_, ?_⟩
  · cases hc : c.CreateWebArenaIndigoV1VmSSHKey (IndigoV1VmSSHKeyResource.createRequest plan) with
    | error e => simp [IndigoV1VmSSHKeyResource.Create, hc]
    | ok o => cases o <;> simp [IndigoV1VmSSHKeyResource.Create, hc]
  · intro id hid
    constructor
    · cases hr : c.RetrieveWebArenaIndigoV1VmSSHKey id with
      | error e => simp [IndigoV1VmSSHKeyResource.Read, hid, hr]
      | ok o =>
        cases o with
        | none => simp [IndigoV1VmSSHKeyResource.Read, hid, hr]
        | some r =>
          simp only [IndigoV1VmSSHKeyResource.Read, hid, hr]
          split <;> rfl
    · cases hd : c.DestroyWebArenaIndigoV1VmSSHKey id with
      | error e => simp [IndigoV1VmSSHKeyResource.Delete, hid, hd]
      | ok o => cases o <;> simp [IndigoV1VmSSHKeyResource.Delete, hid, hd]
  · intro e he
    exact ⟨by simp [IndigoV1VmSSHKeyResource.Read, he],
           by simp [IndigoV1VmSSHKeyResource.Update, he],
           by simp [IndigoV1VmSSHKeyResource.Delete, he]⟩
  · intro id hid
    cases hu : c.UpdateWebArenaIndigoV1VmSSHKey id (IndigoV1VmSSHKeyResource.updateRequest plan) with
    | error e => left; simp [IndigoV1VmSSHKeyResource.Update, hid, hu]
    | ok o =>
      cases o with
      | none => left; simp [IndigoV1VmSSHKeyResource.Update, hid, hu]
      | some u =>
        right
        cases hr : c.RetrieveWebArenaIndigoV1VmSSHKey id with
        | error e => simp [IndigoV1VmSSHKeyResource.Update, hid, hu, hr]
        | ok o2 =>
          cases o2 with
          | none => simp [IndigoV1VmSSHKeyResource.Update, hid, hu, hr]
          | some r =>
            simp only [IndigoV1VmSSHKeyResource.Update, hid, hu, hr]
            split <;> rfl

/-- Resource model whose stored id has no decimal digits, so that
strconv.ParseInt fails on it. -/
def badIDPlan : IndigoV1VmSSHKeyResourceModel := { samplePlan with ID := "x" }

/-- Witness for C1_amended_calls at concrete inputs. -/
theorem C1_amended_calls_witness :
    ((IndigoV1VmSSHKeyResource.Read happyClient (.ok samplePlan)).1 =
        [ClientCall.retrieve 7] ∧
     (IndigoV1VmSSHKeyResource.Delete happyClient (.ok samplePlan)).1 =
        [ClientCall.destroy 7]) ∧
    ((IndigoV1VmSSHKeyResource.Read happyClient (.ok badIDPlan)).1 = [] ∧
     (IndigoV1VmSSHKeyResource.Update happyClient (.ok badIDPlan)).1 = [] ∧
     (IndigoV1VmSSHKeyResource.Delete happyClient (.ok badIDPlan)).1 = []) ∧
    ((IndigoV1VmSSHKeyResource.Update happyClient (.ok samplePlan)).1 =
        [ClientCall.update 7 (IndigoV1VmSSHKeyResource.updateRequest samplePlan)] ∨
     (IndigoV1VmSSHKeyResource.Update happyClient (.ok samplePlan)).1 =
        [ClientCall.update 7 (IndigoV1VmSSHKeyResource.updateRequest samplePlan),
         ClientCall.retrieve 7]) :=
  ⟨(C1_amended_calls happyClient samplePlan samplePlan).2.1 7 rfl,
   (C1_amended_calls happyClient samplePlan badIDPlan).2.2.1 "invalid syntax" rfl,
   (C1_amended_calls happyClient samplePlan samplePlan).2.2.2 7 rfl⟩

/-- Resource state model with all eight fields copied from an SSH key record
of the REST response (the id is stored as its decimal string). -/
def resourceModelOfRecord (k : indigo.SshKeyRecord) : IndigoV1VmSSHKeyResourceModel :=
  { ID := strconv.FormatInt k.Id, ServiceId := k.ServiceId, UserId := k.UserId,
    Name := k.Name, SshKey := k.Sshkey, Status := k.Status,
    CreatedAt := k.CreatedAt, UpdatedAt := k.UpdatedAt }

/-- Data source state model with all eight fields copied from an SSH key
record of the REST response. -/
def dataSourceModelOfRecord (k : indigo.SshKeyRecord) : IndigoV1VmSSHKeyDataSourceModel :=
  { Id := k.Id, ServiceId := k.ServiceId, UserId := k.UserId,
    Name := k.Name, SshKey := k.Sshkey, Status := k.Status,
    CreatedAt := k.CreatedAt, UpdatedAt := k.UpdatedAt }

/-- Claim C2: for every successful completion of resource Create, resource
Read, resource Update, and data-source Read, the state passed to
resp.State.Set has exactly the eight fields id, service_id, user_id, name,
sshkey, status, created_at, updated_at set, each copied from the
corresponding field of the REST response's SSH key record. -/
theorem C2_eight_fields_copied :
    ∀ (c : indigo.Client) (plan state : IndigoV1VmSSHKeyResourceModel)
      (dconfig : IndigoV1VmSSHKeyDataSourceModel),
    (∀ r, c.CreateWebArenaIndigoV1VmSSHKey (IndigoV1VmSSHKeyResource.createRequest plan) =
        .ok (some r) →
      (IndigoV1VmSSHKeyResource.Create c (.ok plan)).2 =
        .setState (resourceModelOfRecord r.SshKey)) ∧
    (∀ id k, strconv.ParseInt state.ID = .ok id →
      c.RetrieveWebArenaIndigoV1VmSSHKey id = .ok (some { SshKey := [k] }) →
      (IndigoV1VmSSHKeyResource.Read c (.ok state)).2 =
        .setState (resourceModelOfRecord k)) ∧
    (∀ id u k, strconv.ParseInt plan.ID = .ok id →
      c.UpdateWebArenaIndigoV1VmSSHKey id (IndigoV1VmSSHKeyResource.updateRequest plan) =
        .ok (some u) →
      c.RetrieveWebArenaIndigoV1VmSSHKey id = .ok (some { SshKey := [k] }) →
      (IndigoV1VmSSHKeyResource.Update c (.ok plan)).2 =
        .setState (resourceModelOfRecord k)) ∧
    (∀ k, c.RetrieveWebArenaIndigoV1VmSSHKey dconfig.Id = .ok (some { SshKey := [k] }) →
      (IndigoV1VmSSHKeyDataSource.Read c (.ok dconfig)).2 =
        .setState (dataSourceModelOfRecord k)) := by
  intro c plan state dconfig
  refine ⟨?_, ?_, ?_, ?_⟩
  · intro r hc
    simp [IndigoV1VmSSHKeyResource.Create, hc, resourceModelOfRecord]
  · intro id k hid hr
    simp [IndigoV1VmSSHKeyResource.Read, hid, hr, resourceModelOfRecord]
  · intro id u k hid hu hr
    simp [IndigoV1VmSSHKeyResource.Update, hid, hu, hr, resourceModelOfRecord]
  · intro k hr
    simp [IndigoV1VmSSHKeyDataSource.Read, hr, dataSourceModelOfRecord]

/-- Witness for C2_eight_fields_copied at concrete inputs. -/
theorem C2_eight_fields_copied_witness :
    (IndigoV1VmSSHKeyResource.Create happyClient (.ok samplePlan)).2 =
      .setState (resourceModelOfRecord sampleKey) ∧
    (IndigoV1VmSSHKeyResource.Read happyClient (.ok samplePlan)).2 =
      .setState (resourceModelOfRecord sampleKey) ∧
    (IndigoV1VmSSHKeyResource.Update happyClient (.ok samplePlan)).2 =
      .setState (resourceModelOfRecord sampleKey) ∧
    (IndigoV1VmSSHKeyDataSource.Read happyClient (.ok sampleDsConfig)).2 =
      .setState (dataSourceModelOfRecord sampleKey) :=
  ⟨(C2_eight_fields_copied happyClient samplePlan samplePlan sampleDsConfig).1
      { SshKey := sampleKey } rfl,
   (C2_eight_fields_copied happyClient samplePlan samplePlan sampleDsConfig).2.1
      7 sampleKey rfl rfl,
   (C2_eight_fields_copied happyClient samplePlan samplePlan sampleDsConfig).2.2.1
      7 {} sampleKey rfl rfl rfl,
   (C2_eight_fields_copied happyClient samplePlan samplePlan sampleDsConfig).2.2.2
      sampleKey rfl⟩

/-- Claim C3: the provider registers exactly one managed resource type and
exactly one data source: Resources is the one-element list containing
NewIndigoV1VmSSHKeyResource and DataSources is the one-element list
containing NewIndigoV1VmSSHKeyDataSource. -/
theorem C3_single_resource_and_data_source :
    WebARENAProvider.Resources =
      [WebARENAProvider.ResourceConstructor.NewIndigoV1VmSSHKeyResource] ∧
    WebARENAProvider.Resources.length = 1 ∧
    WebARENAProvider.DataSources =
      [WebARENAProvider.DataSourceConstructor.NewIndigoV1VmSSHKeyDataSource] ∧
    WebARENAProvider.DataSources.length = 1 :=
  ⟨rfl, rfl, rfl, rfl⟩

/-- Claim C4: the program validates four string/int fields before any HTTP
call: Configure reaches indigo.NewClient exactly when the three configuration
values are known and the effective client id and client secret are nonempty,
and the id-string validation in Read, Update and Delete gates the client
call: when strconv.ParseInt fails on the stored id, an error diagnostic is
recorded and the handler returns with an empty call trace. -/
theorem C4_validation_gates_client :
    (∀ (env : WebARENAProvider.Env) (config : WebARENAProvider.Model),
      (WebARENAProvider.Configure env (.ok config)).reachesNewClient =
        WebARENAProvider.configureValidationsPass env config) ∧
    (∀ (c : indigo.Client) (state : IndigoV1VmSSHKeyResourceModel) (e : String),
      strconv.ParseInt state.ID = .error e →
      IndigoV1VmSSHKeyResource.Read c (.ok state) =
        ([], Outcome.errored "ID Error") ∧
      IndigoV1VmSSHKeyResource.Update c (.ok state) =
        ([], Outcome.errored "ID Error") ∧
      IndigoV1VmSSHKeyResource.Delete c (.ok state) =
        ([], Outcome.errored "ID Error")) := by
  constructor
  · intro env config
    simp only [WebARENAProvider.Configure, WebARENAProvider.configureValidationsPass]
    by_cases h1 : config.Endpoint.isUnknown <;>
    by_cases h2 : config.ClientID.isUnknown <;>
    by_cases h3 : config.ClientSecret.isUnknown <;>
    by_cases h4 : WebARENAProvider.resolvedClientID env config = "" <;>
    by_cases h5 : WebARENAProvider.resolvedClientSecret env config = "" <;>
    simp [h1, h2, h3, h4, h5, WebARENAProvider.ConfigureOutcome.reachesNewClient]
  · intro c state e he
    exact ⟨by simp [IndigoV1VmSSHKeyResource.Read, he],
           by simp [IndigoV1VmSSHKeyResource.Update, he],
           by simp [IndigoV1VmSSHKeyResource.Delete, he]⟩

/-- Witness for C4_validation_gates_client at a concrete failing id. -/
theorem C4_validation_gates_client_witness :
    IndigoV1VmSSHKeyResource.Read happyClient (.ok badIDPlan) =
      ([], Outcome.errored "ID Error") ∧
    IndigoV1VmSSHKeyResource.Update happyClient (.ok badIDPlan) =
      ([], Outcome.errored "ID Error") ∧
    IndigoV1VmSSHKeyResource.Delete happyClient (.ok badIDPlan) =
      ([], Outcome.errored "ID Error") :=
  C4_validation_gates_client.2 happyClient badIDPlan "invalid syntax" rfl

/-- Claim C5: the data source is read-only: its Read handler only ever calls
the retrieve endpoint — the trace is exactly one retrieve call when the
configuration was read, and empty when reading the configuration failed — so
no mutating endpoint (create, update, destroy) is ever invoked. -/
theorem C5_data_source_read_only :
    ∀ (c : indigo.Client) (dconfig : IndigoV1VmSSHKeyDataSourceModel) (e : String),
    (IndigoV1VmSSHKeyDataSource.Read c (.ok dconfig)).1 =
      [ClientCall.retrieve dconfig.Id] ∧
    (IndigoV1VmSSHKeyDataSource.Read c (.error e)).1 = [] := by
  intro c dconfig e
  constructor
  · cases hr : c.RetrieveWebArenaIndigoV1VmSSHKey dconfig.Id with
    | error e2 => simp [IndigoV1VmSSHKeyDataSource.Read, hr]
    | ok o =>
      cases o with
      | none => simp [IndigoV1VmSSHKeyDataSource.Read, hr]
      | some r =>
        simp only [IndigoV1VmSSHKeyDataSource.Read, hr]
        split <;> rfl
  · rfl

/-- Claim C6: the import operation is a pure passthrough: for every import
request with ID string s, ImportState writes exactly the single attribute at
path "id" with value s and performs no REST call. -/
theorem C6_import_passthrough :
    ∀ s : String, IndigoV1VmSSHKeyResource.ImportState s = ([], [("id", s)]) :=
  fun _ => rfl

theorem Create_trace_cases (c : indigo.Client)
    (g : Except String IndigoV1VmSSHKeyResourceModel) :
    (IndigoV1VmSSHKeyResource.Create c g).1 = [] ∨
    ∃ r, (IndigoV1VmSSHKeyResource.Create c g).1 = [ClientCall.create r] := by
  cases g with
  | error e => left; rfl
  | ok plan =>
    right
    refine ⟨IndigoV1VmSSHKeyResource.createRequest plan, ?_⟩
    cases hc : c.CreateWebArenaIndigoV1VmSSHKey (IndigoV1VmSSHKeyResource.createRequest plan) with
    | error e => simp [IndigoV1VmSSHKeyResource.Create, hc]
    | ok o => cases o <;> simp [IndigoV1VmSSHKeyResource.Create, hc]

theorem Read_trace_cases (c : indigo.Client)
    (g : Except String IndigoV1VmSSHKeyResourceModel) :
    (IndigoV1VmSSHKeyResource.Read c g).1 = [] ∨
    ∃ i, (IndigoV1VmSSHKeyResource.Read c g).1 = [ClientCall.retrieve i] := by
  cases g with
  | error e => left; rfl
  | ok state =>
    cases hid : strconv.ParseInt state.ID with
    | error e => left; simp [IndigoV1VmSSHKeyResource.Read, hid]
    | ok id =>
      right
      refine ⟨id, ?_⟩
      cases hr : c.RetrieveWebArenaIndigoV1VmSSHKey id with
      | error e => simp [IndigoV1VmSSHKeyResource.Read, hid, hr]
      | ok o =>
        cases o with
        | none => simp [IndigoV1VmSSHKeyResource.Read, hid, hr]
        | some r =>
          simp only [IndigoV1VmSSHKeyResource.Read, hid, hr]
          split <;> rfl

theorem Delete_trace_cases (c : indigo.Client)
    (g : Except String IndigoV1VmSSHKeyResourceModel) :
    (IndigoV1VmSSHKeyResource.Delete c g).1 = [] ∨
    ∃ i, (IndigoV1VmSSHKeyResource.Delete c g).1 = [ClientCall.destroy i] := by
  cases g with
  | error e => left; rfl
  | ok state =>
    cases hid : strconv.ParseInt state.ID with
    | error e => left; simp [IndigoV1VmSSHKeyResource.Delete, hid]
    | ok id =>
      right
      refine ⟨id, ?_⟩
      cases hd : c.DestroyWebArenaIndigoV1VmSSHKey id with
      | error e => simp [IndigoV1VmSSHKeyResource.Delete, hid, hd]
      | ok o => cases o <;> simp [IndigoV1VmSSHKeyResource.Delete, hid, hd]

theorem Update_trace_cases (c : indigo.Client)
    (g : Except String IndigoV1VmSSHKeyResourceModel) :
    (IndigoV1VmSSHKeyResource.Update c g).1 = [] ∨
    (∃ i r, (IndigoV1VmSSHKeyResource.Update c g).1 = [ClientCall.update i r]) ∨
    ∃ i r, (IndigoV1VmSSHKeyResource.Update c g).1 =
      [ClientCall.update i r, ClientCall.retrieve i] := by
  cases g with
  | error e => left; rfl
  | ok plan =>
    cases hid : strconv.ParseInt plan.ID with
    | error e => left; simp [IndigoV1VmSSHKeyResource.Update, hid]
    | ok id =>
      right
      cases hu : c.UpdateWebArenaIndigoV1VmSSHKey id (IndigoV1VmSSHKeyResource.updateRequest plan) with
      | error e =>
        left
        refine ⟨id, IndigoV1VmSSHKeyResource.updateRequest plan, ?_⟩
        simp [IndigoV1VmSSHKeyResource.Update, hid, hu]
      | ok o =>
        cases o with
        | none =>
          left
          refine ⟨id, IndigoV1VmSSHKeyResource.updateRequest plan, ?_⟩
          simp [IndigoV1VmSSHKeyResource.Update, hid, hu]
        | some u =>
          right
          refine ⟨id, IndigoV1VmSSHKeyResource.updateRequest plan, ?_⟩
          cases hr : c.RetrieveWebArenaIndigoV1VmSSHKey id with
          | error e => simp [IndigoV1VmSSHKeyResource.Update, hid, hu, hr]
          | ok o2 =>
            cases o2 with
            | none => simp [IndigoV1VmSSHKeyResource.Update, hid, hu, hr]
            | some r =>
              simp only [IndigoV1VmSSHKeyResource.Update, hid, hu, hr]
              split <;> rfl

/-- Second sample plan, distinct from samplePlan. -/
def samplePlan2 : IndigoV1VmSSHKeyResourceModel :=
  { samplePlan with ID := "8", Name := "key2" }

/-- Claim C7, counterexample: the claim allows one client call per callback,
but on its successful path the Update callback performs two client calls. -/
theorem C7_counterexample :
    (IndigoV1VmSSHKeyResource.Update happyClient (.ok samplePlan2)).1.length = 2 ∧
    ¬ (IndigoV1VmSSHKeyResource.Update happyClient (.ok samplePlan2)).1.length ≤ 1 :=
  ⟨rfl, by decide⟩

/-- Claim C7 (amended): the resource supplies exactly the four CRUD
callbacks, and each is nothing beyond marshalling, at most two client calls
(Create, Read and Delete make at most one call of their respective endpoint;
Update makes an update call followed, on success, by a retrieve call), and
unmarshalling into state. -/
theorem C7_amended_callbacks :
    ∀ (c : indigo.Client) (g : Except String IndigoV1VmSSHKeyResourceModel),
    (IndigoV1VmSSHKeyResource.Create c g).1.length ≤ 1 ∧
    (IndigoV1VmSSHKeyResource.Read c g).1.length ≤ 1 ∧
    (IndigoV1VmSSHKeyResource.Update c g).1.length ≤ 2 ∧
    (IndigoV1VmSSHKeyResource.Delete c g).1.length ≤ 1 ∧
    (∀ call ∈ (IndigoV1VmSSHKeyResource.Create c g).1, ∃ r, call = ClientCall.create r) ∧
    (∀ call ∈ (IndigoV1VmSSHKeyResource.Read c g).1, ∃ i, call = ClientCall.retrieve i) ∧
    (∀ call ∈ (IndigoV1VmSSHKeyResource.Update c g).1,
      (∃ i r, call = ClientCall.update i r) ∨ ∃ i, call = ClientCall.retrieve i) ∧
    (∀ call ∈ (IndigoV1VmSSHKeyResource.Delete c g).1, ∃ i, call = ClientCall.destroy i) := by
  intro c g
  have hC := Create_trace_cases c g
  have hR := Read_trace_cases c g
  have hU := Update_trace_cases c g
  have hD := Delete_trace_cases c g
  refine ⟨?_, ?_, ?_, ?_, ?_, ?_, ?_, ?_⟩
  · rcases hC with h | ⟨r, h⟩ <;> simp [h]
  · rcases hR with h | ⟨i, h⟩ <;> simp [h]
  · rcases hU with h | ⟨i, r, h⟩ | ⟨i, r, h⟩ <;> simp [h]
  · rcases hD with h | ⟨i, h⟩ <;> simp [h]
  · rcases hC with h | ⟨r, h⟩ <;> simp [h]
  · rcases hR with h | ⟨i, h⟩ <;> simp [h]
  · rcases hU with h | ⟨i, r, h⟩ | ⟨i, r, h⟩ <;> simp [h]
  · rcases hD with h | ⟨i, h⟩ <;> simp [h]

/-- Witness for C7_amended_callbacks at concrete inputs. -/
theorem C7_amended_callbacks_witness :
    (IndigoV1VmSSHKeyResource.Update happyClient (.ok samplePlan)).1.length ≤ 2 ∧
    ((∃ i r, ClientCall.update 7 (IndigoV1VmSSHKeyResource.updateRequest samplePlan) =
        ClientCall.update i r) ∨
     ∃ i, ClientCall.update 7 (IndigoV1VmSSHKeyResource.updateRequest samplePlan) =
        ClientCall.retrieve i) :=
  ⟨(C7_amended_callbacks happyClient (.ok samplePlan)).2.2.1,
   (C7_amended_callbacks happyClient (.ok samplePlan)).2.2.2.2.2.2.1
     (ClientCall.update 7 (IndigoV1VmSSHKeyResource.updateRequest samplePlan))
     (by rw [show (IndigoV1VmSSHKeyResource.Update happyClient (.ok samplePlan)).1 =
          [ClientCall.update 7 (IndigoV1VmSSHKeyResource.updateRequest samplePlan),
           ClientCall.retrieve 7] from rfl]
         exact List.mem_cons_self _ _)⟩

/-- Error-path condition of resource Read as listed by the claim: the stored
id string fails to parse, the retrieve call returns an error, the retrieve
response is nil, or the response's SshKey slice length differs from 1. -/
def readErrPath (c : indigo.Client) (state : IndigoV1VmSSHKeyResourceModel) : Bool :=
  match strconv.ParseInt state.ID with
  | .error _ => true
  | .ok id =>
    match c.RetrieveWebArenaIndigoV1VmSSHKey id with
    | .error _ => true
    | .ok none => true
    | .ok (some r) => decide (r.SshKey.length ≠ 1)

/-- Error-path condition of resource Update as listed by the claim: the
planned id fails to parse, the update call errors or returns nil, the
retrieve call errors or returns nil, or the SshKey slice length differs
from 1. -/
def updateErrPath (c : indigo.Client) (plan : IndigoV1VmSSHKeyResourceModel) : Bool :=
  match strconv.ParseInt plan.ID with
  | .error _ => true
  | .ok id =>
    match c.UpdateWebArenaIndigoV1VmSSHKey id (IndigoV1VmSSHKeyResource.updateRequest plan) with
    | .error _ => true
    | .ok none => true
    | .ok (some _) =>
      match c.RetrieveWebArenaIndigoV1VmSSHKey id with
      | .error _ => true
      | .ok none => true
      | .ok (some r) => decide (r.SshKey.length ≠ 1)

/-- Error-path condition of data-source Read as listed by the claim: the
retrieve call errors, the response is nil, or the SshKey slice length
differs from 1. -/
def dsReadErrPath (c : indigo.Client) (dconfig : IndigoV1VmSSHKeyDataSourceModel) : Bool :=
  match c.RetrieveWebArenaIndigoV1VmSSHKey dconfig.Id with
  | .error _ => true
  | .ok none => true
  | .ok (some r) => decide (r.SshKey.length ≠ 1)

/-- Claim C8: error atomicity of reads and updates: whenever an error path of
resource Read, resource Update or data-source Read is taken, an error
diagnostic is added and the handler returns without calling resp.State.Set,
leaving the Terraform state unchanged. -/
theorem C8_error_atomicity :
    ∀ (c : indigo.Client) (state plan : IndigoV1VmSSHKeyResourceModel)
      (dconfig : IndigoV1VmSSHKeyDataSourceModel),
    (readErrPath c state = true →
      (IndigoV1VmSSHKeyResource.Read c (.ok state)).2.isErrored = true ∧
      (IndigoV1VmSSHKeyResource.Read c (.ok state)).2.savesState = false) ∧
    (updateErrPath c plan = true →
      (IndigoV1VmSSHKeyResource.Update c (.ok plan)).2.isErrored = true ∧
      (IndigoV1VmSSHKeyResource.Update c (.ok plan)).2.savesState = false) ∧
    (dsReadErrPath c dconfig = true →
      (IndigoV1VmSSHKeyDataSource.Read c (.ok dconfig)).2.isErrored = true ∧
      (IndigoV1VmSSHKeyDataSource.Read c (.ok dconfig)).2.savesState = false) := by
  intro c state plan dconfig
  refine ⟨?_, ?_, ?_⟩
  · intro h
    cases hid : strconv.ParseInt state.ID with
    | error e =>
      simp [IndigoV1VmSSHKeyResource.Read, hid, Outcome.isErrored, Outcome.savesState]
    | ok id =>
      cases hr : c.RetrieveWebArenaIndigoV1VmSSHKey id with
      | error e =>
        simp [IndigoV1VmSSHKeyResource.Read, hid, hr, Outcome.isErrored, Outcome.savesState]
      | ok o =>
        cases o with
        | none =>
          simp [IndigoV1VmSSHKeyResource.Read, hid, hr, Outcome.isErrored, Outcome.savesState]
        | some r =>
          simp only [readErrPath, hid, hr, decide_eq_true_eq] at h
          cases hk : r.SshKey with
          | nil =>
            simp [IndigoV1VmSSHKeyResource.Read, hid, hr, hk, Outcome.isErrored,
              Outcome.savesState]
          | cons a t =>
            cases t with
            | nil => rw [hk] at h; simp at h
            | cons b t2 =>
              simp [IndigoV1VmSSHKeyResource.Read, hid, hr, hk, Outcome.isErrored,
                Outcome.savesState]
  · intro h
    cases hid : strconv.ParseInt plan.ID with
    | error e =>
      simp [IndigoV1VmSSHKeyResource.Update, hid, Outcome.isErrored, Outcome.savesState]
    | ok id =>
      cases hu : c.UpdateWebArenaIndigoV1VmSSHKey id (IndigoV1VmSSHKeyResource.updateRequest plan) with
      | error e =>
        simp [IndigoV1VmSSHKeyResource.Update, hid, hu, Outcome.isErrored, Outcome.savesState]
      | ok o =>
        cases o with
        | none =>
          simp [IndigoV1VmSSHKeyResource.Update, hid, hu, Outcome.isErrored, Outcome.savesState]
        | some u =>
          cases hr : c.RetrieveWebArenaIndigoV1VmSSHKey id with
          | error e =>
            simp [IndigoV1VmSSHKeyResource.Update, hid, hu, hr, Outcome.isErrored,
              Outcome.savesState]
          | ok o2 =>
            cases o2 with
            | none =>
              simp [IndigoV1VmSSHKeyResource.Update, hid, hu, hr, Outcome.isErrored,
                Outcome.savesState]
            | some r =>
              simp only [updateErrPath, hid, hu, hr, decide_eq_true_eq] at h
              cases hk : r.SshKey with
              | nil =>
                simp [IndigoV1VmSSHKeyResource.Update, hid, hu, hr, hk, Outcome.isErrored,
                  Outcome.savesState]
              | cons a t =>
                cases t with
                | nil => rw [hk] at h; simp at h
                | cons b t2 =>
                  simp [IndigoV1VmSSHKeyResource.Update, hid, hu, hr, hk, Outcome.isErrored,
                    Outcome.savesState]
  · intro h
    cases hr : c.RetrieveWebArenaIndigoV1VmSSHKey dconfig.Id with
    | error e =>
      simp [IndigoV1VmSSHKeyDataSource.Read, hr, Outcome.isErrored, Outcome.savesState]
    | ok o =>
      cases o with
      | none =>
        simp [IndigoV1VmSSHKeyDataSource.Read, hr, Outcome.isErrored, Outcome.savesState]
      | some r =>
        simp only [dsReadErrPath, hr, decide_eq_true_eq] at h
        cases hk : r.SshKey with
        | nil =>
          simp [IndigoV1VmSSHKeyDataSource.Read, hr, hk, Outcome.isErrored, Outcome.savesState]
        | cons a t =>
          cases t with
          | nil => rw [hk] at h; simp at h
          | cons b t2 =>
            simp [IndigoV1VmSSHKeyDataSource.Read, hr, hk, Outcome.isErrored, Outcome.savesState]

/-- Client whose four endpoints all return an error. -/
def errClient : indigo.Client :=
  { CreateWebArenaIndigoV1VmSSHKey := fun _ => .error "boom"
    RetrieveWebArenaIndigoV1VmSSHKey := fun _ => .error "boom"
    UpdateWebArenaIndigoV1VmSSHKey := fun _ _ => .error "boom"
    DestroyWebArenaIndigoV1VmSSHKey := fun _ => .error "boom" }

/-- Witness for C8_error_atomicity at a concrete erring client. -/
theorem C8_error_atomicity_witness :
    ((IndigoV1VmSSHKeyResource.Read errClient (.ok samplePlan)).2.isErrored = true ∧
     (IndigoV1VmSSHKeyResource.Read errClient (.ok samplePlan)).2.savesState = false) ∧
    ((IndigoV1VmSSHKeyResource.Update errClient (.ok samplePlan)).2.isErrored = true ∧
     (IndigoV1VmSSHKeyResource.Update errClient (.ok samplePlan)).2.savesState = false) ∧
    ((IndigoV1VmSSHKeyDataSource.Read errClient (.ok sampleDsConfig)).2.isErrored = true ∧
     (IndigoV1VmSSHKeyDataSource.Read errClient (.ok sampleDsConfig)).2.savesState = false) :=
  ⟨(C8_error_atomicity errClient samplePlan samplePlan sampleDsConfig).1 rfl,
   (C8_error_atomicity errClient samplePlan samplePlan sampleDsConfig).2.1 rfl,
   (C8_error_atomicity errClient samplePlan samplePlan sampleDsConfig).2.2 rfl⟩

/-- Claim C9: Delete dereferences the destroy response without a nil guard:
when the stored id parses and the destroy endpoint returns a nil response
with a nil error, Delete hits a nil dereference; Read and Update, which
check their responses for nil, never hit one; and Delete is safe whenever
the destroy endpoint never returns a nil response with a nil error. -/
theorem C9_delete_nil_dereference :
    (∀ (c : indigo.Client) (state : IndigoV1VmSSHKeyResourceModel) (id : Int),
      strconv.ParseInt state.ID = .ok id →
      c.DestroyWebArenaIndigoV1VmSSHKey id = .ok none →
      (IndigoV1VmSSHKeyResource.Delete c (.ok state)).2 = Outcome.nilPanic) ∧
    (∀ (c : indigo.Client) (g : Except String IndigoV1VmSSHKeyResourceModel),
      (IndigoV1VmSSHKeyResource.Read c g).2 ≠ Outcome.nilPanic ∧
      (IndigoV1VmSSHKeyResource.Update c g).2 ≠ Outcome.nilPanic) ∧
    (∀ (c : indigo.Client) (g : Except String IndigoV1VmSSHKeyResourceModel),
      (∀ i, c.DestroyWebArenaIndigoV1VmSSHKey i ≠ .ok none) →
      (IndigoV1VmSSHKeyResource.Delete c g).2 ≠ Outcome.nilPanic) := by
  refine ⟨?_, ?_, ?_⟩
  · intro c state id hid hd
    simp [IndigoV1VmSSHKeyResource.Delete, hid, hd]
  · intro c g
    constructor
    · cases g with
      | error e => simp [IndigoV1VmSSHKeyResource.Read]
      | ok state =>
        cases hid : strconv.ParseInt state.ID with
        | error e => simp [IndigoV1VmSSHKeyResource.Read, hid]
        | ok id =>
          cases hr : c.RetrieveWebArenaIndigoV1VmSSHKey id with
          | error e => simp [IndigoV1VmSSHKeyResource.Read, hid, hr]
          | ok o =>
            cases o with
            | none => simp [IndigoV1VmSSHKeyResource.Read, hid, hr]
            | some r =>
              simp only [IndigoV1VmSSHKeyResource.Read, hid, hr]
              split <;> simp
    · cases g with
      | error e => simp [IndigoV1VmSSHKeyResource.Update]
      | ok plan =>
        cases hid : strconv.ParseInt plan.ID with
        | error e => simp [IndigoV1VmSSHKeyResource.Update, hid]
        | ok id =>
          cases hu : c.UpdateWebArenaIndigoV1VmSSHKey id (IndigoV1VmSSHKeyResource.updateRequest plan) with
          | error e => simp [IndigoV1VmSSHKeyResource.Update, hid, hu]
          | ok o =>
            cases o with
            | none => simp [IndigoV1VmSSHKeyResource.Update, hid, hu]
            | some u =>
              cases hr : c.RetrieveWebArenaIndigoV1VmSSHKey id with
              | error e => simp [IndigoV1VmSSHKeyResource.Update, hid, hu, hr]
              | ok o2 =>
                cases o2 with
                | none => simp [IndigoV1VmSSHKeyResource.Update, hid, hu, hr]
                | some r =>
                  simp only [IndigoV1VmSSHKeyResource.Update, hid, hu, hr]
                  split <;> simp
  · intro c g hno
    cases g with
    | error e => simp [IndigoV1VmSSHKeyResource.Delete]
    | ok state =>
      cases hid : strconv.ParseInt state.ID with
      | error e => simp [IndigoV1VmSSHKeyResource.Delete, hid]
      | ok id =>
        cases hd : c.DestroyWebArenaIndigoV1VmSSHKey id with
        | error e => simp [IndigoV1VmSSHKeyResource.Delete, hid, hd]
        | ok o =>
          cases o with
          | none => exact absurd hd (hno id)
          | some d => simp [IndigoV1VmSSHKeyResource.Delete, hid, hd]

/-- Client whose destroy endpoint returns a nil response with a nil error. -/
def nilDestroyClient : indigo.Client :=
  { CreateWebArenaIndigoV1VmSSHKey := fun _ => .error "boom"
    RetrieveWebArenaIndigoV1VmSSHKey := fun _ => .error "boom"
    UpdateWebArenaIndigoV1VmSSHKey := fun _ _ => .error "boom"
    DestroyWebArenaIndigoV1VmSSHKey := fun _ => .ok none }

/-- Witness for C9_delete_nil_dereference at concrete clients. -/
theorem C9_delete_nil_dereference_witness :
    (IndigoV1VmSSHKeyResource.Delete nilDestroyClient (.ok samplePlan)).2 =
      Outcome.nilPanic ∧
    (IndigoV1VmSSHKeyResource.Delete happyClient (.ok samplePlan)).2 ≠
      Outcome.nilPanic :=
  ⟨C9_delete_nil_dereference.1 nilDestroyClient samplePlan 7 rfl rfl,
   C9_delete_nil_dereference.2.2 happyClient (.ok samplePlan)
     (fun _ h => Option.noConfusion (Except.ok.inj h))⟩

/-- Claim C10: id round-trip: for every int64 id in the create response, the
id string stored by Create (strconv.FormatInt) parses back without error via
strconv.ParseInt as used by Read, Update and Delete, yielding the same int64
value, so a state written by Create never triggers the id parse error path. -/
theorem C10_id_roundtrip :
    ∀ (c : indigo.Client) (plan : IndigoV1VmSSHKeyResourceModel)
      (r : indigo.CreateWebArenaIndigoV1VmSSHKeyResponse),
    c.CreateWebArenaIndigoV1VmSSHKey (IndigoV1VmSSHKeyResource.createRequest plan) =
      .ok (some r) →
    -(2 ^ 63) ≤ r.SshKey.Id → r.SshKey.Id ≤ 2 ^ 63 - 1 →
    ∃ st, (IndigoV1VmSSHKeyResource.Create c (.ok plan)).2 = Outcome.setState st ∧
      strconv.ParseInt st.ID = .ok r.SshKey.Id := by
  intro c plan r hc h1 h2
  refine ⟨resourceModelOfRecord r.SshKey, ?_, ?_⟩
  · simp [IndigoV1VmSSHKeyResource.Create, hc, resourceModelOfRecord]
  · exact strconv.ParseInt_FormatInt r.SshKey.Id h1 h2

/-- Witness for C10_id_roundtrip at a concrete create response. -/
theorem C10_id_roundtrip_witness :
    ∃ st, (IndigoV1VmSSHKeyResource.Create happyClient (.ok samplePlan)).2 =
      Outcome.setState st ∧ strconv.ParseInt st.ID = .ok sampleKey.Id :=
  C10_id_roundtrip happyClient samplePlan { SshKey := sampleKey } rfl
    (by norm_num [sampleKey]) (by norm_num [sampleKey])
